import Mathlib

/-!
Shallow embedding of the PropertyData Flask service (src/app.py).

The two request handlers, `predict_document_type` (route /predict) and
`enrich_property` (route /enrich), are translated as pure Lean functions
over an explicit environment that models the external collaborators:
the scraping library (homeharvest.scrape_property), the PDF-to-image
converter (pdf2image.convert_from_path), the OCR engine
(pytesseract.image_to_string), the pre-trained classifier (doc_model),
and the filesystem unlink call.  Each external call is a field of the
environment returning `Except String` so that a raised Python exception
is an `Except.error` carrying its message.  Every handler run returns,
besides the HTTP response, the observable side effects: the list of
external calls made, the temporary-file state and the process log.
-/

set_option linter.unusedVariables false

namespace PropertyData

/-! ### Python string helpers: filename.lower().endswith(".pdf") -/

/-- ASCII lower-casing of a single character, as Python str.lower acts on
ASCII filenames. -/
def lowerChar (c : Char) : Char :=
  if 65 ≤ c.toNat ∧ c.toNat ≤ 90 then Char.ofNat (c.toNat + 32) else c

/-- Embedding of Python str.lower on the character list of a string. -/
def pyLower (s : String) : String := String.mk (s.data.map lowerChar)

/-- Embedding of Python str.endswith: the last characters of s are exactly
the given ending. -/
def pyEndsWith (s ending : String) : Bool :=
  s.data.reverse.take ending.data.length = ending.data.reverse

/-! ### The /enrich handler (enrich_property, src/app.py lines 146-209) -/

/-- JSON values appearing in an /enrich request body. -/
inductive JVal where
  | null
  | b (v : Bool)
  | i (v : Int)
  | s (v : String)
  deriving Repr, DecidableEq

/-- A parsed JSON object body, as Flask request.json yields for a dict. -/
abbrev JBody := List (String × JVal)

/-- Key lookup in a JSON object, first binding wins (dict semantics). -/
def jlookup : JBody → String → Option JVal
  | [], _ => none
  | (k, v) :: rest, key => if k = key then some v else jlookup rest key

/-- Embedding of Python dict.get(key, default). -/
def jgetD (body : JBody) (key : String) (dflt : JVal) : JVal :=
  match jlookup body key with
  | some v => v
  | none => dflt

/-- A cell of the scraped pandas DataFrame: NaN, Python None, or a value. -/
inductive Cell where
  | nan
  | pynull
  | s (v : String)
  | i (v : Int)
  deriving Repr, DecidableEq

/-- Embedding of pd.isna on a single cell: true on NaN and on None. -/
def pd_isna : Cell → Bool
  | Cell.nan => true
  | Cell.pynull => true
  | _ => false

/-- One DataFrame row, as produced by to_dict(orient=..records..). -/
abbrev PRecord := List (String × Cell)

/-- The scraped DataFrame: a list of rows. -/
abbrev DataFrame := List PRecord

/-- What the scraping call can return: a DataFrame or some other object
(the isinstance check in the handler distinguishes the two). -/
inductive ScrapeOut where
  | df (rows : DataFrame)
  | notDF
  deriving Repr, DecidableEq

/-- A Python exception raised by the scraping call: the handler catches
ValueError separately from every other exception. -/
inductive PyErr where
  | valueError (msg : String)
  | otherError (msg : String)
  deriving Repr, DecidableEq

/-- The keyword arguments enrich_property passes to scrape_property. -/
structure ScrapeArgs where
  location : JVal
  listing_type : JVal
  past_days : JVal
  radius : JVal
  mls_only : JVal
  limit : JVal
  deriving Repr, DecidableEq

/-- The argument record built at src/app.py lines 161-177 from the request
body: address is required, the rest use dict.get with the runtime
defaults (limit defaults to 100). -/
def mkScrapeArgs (body : JBody) (addr : JVal) : ScrapeArgs :=
  { location := addr
    listing_type := jgetD body "listing_type" (JVal.s "for_sale")
    past_days := jgetD body "past_days" JVal.null
    radius := jgetD body "radius" JVal.null
    mls_only := jgetD body "mls_only" (JVal.b false)
    limit := jgetD body "limit" (JVal.i 100) }

/-- Environment of the /enrich handler: the external scraping library. -/
structure EnrichEnv where
  scrape : ScrapeArgs → Except PyErr ScrapeOut

/-- An /enrich request: its parsed JSON body, none when absent. -/
structure EnrichRequest where
  json : Option JBody

/-- HTTP response of the /enrich handler.  `ok` is the 200 body
\x7bsuccess: true, count, properties[, message]\x7d; `err` a plain
\x7berror\x7d body; `errDetails` an \x7berror, details\x7d body. -/
inductive EnrichResponse where
  | err (status : Nat) (error : String)
  | errDetails (status : Nat) (error details : String)
  | ok (count : Nat) (properties : List PRecord) (message : Option String)
  deriving Repr, DecidableEq

/-- Observable outcome of one /enrich request: the response, the scrape
calls that were made, and what was printed to the process log. -/
structure EnrichOutcome where
  response : EnrichResponse
  scrapeCalls : List ScrapeArgs
  log : List String
  deriving Repr, DecidableEq

/-- NaN cleanup loop of src/app.py lines 185-188: every cell on which
pd.isna holds is replaced by None (serialized as JSON null). -/
def clean_record (r : PRecord) : PRecord :=
  r.map (fun kv => if pd_isna kv.2 then (kv.1, Cell.pynull) else kv)

/-- Body of the try block of enrich_property (src/app.py lines 168-209),
entered once the address guard has passed. -/
def enrichGo (env : EnrichEnv) (body : JBody) (addr : JVal) : EnrichOutcome :=
  let args := mkScrapeArgs body addr
  match env.scrape args with
  | Except.ok (ScrapeOut.df rows) =>
    if rows.isEmpty then
      { response := EnrichResponse.ok 0 [] (some "No properties found for the given address")
        scrapeCalls := [args], log := [] }
    else
      let result := rows.map clean_record
      { response := EnrichResponse.ok result.length result none
        scrapeCalls := [args], log := [] }
  | Except.ok ScrapeOut.notDF =>
      { response := EnrichResponse.ok 0 [] (some "No properties found for the given address")
        scrapeCalls := [args], log := [] }
  | Except.error (PyErr.valueError msg) =>
      { response := EnrichResponse.err 400 msg, scrapeCalls := [args], log := [] }
  | Except.error (PyErr.otherError msg) =>
      { response := EnrichResponse.errDetails 500 "An internal error occurred" msg
        scrapeCalls := [args]
        log := ["An error occurred during enrichment: " ++ msg] }

/-- The /enrich handler (src/app.py lines 146-209).  The guard mirrors
`if not request.json or .address. not in request.json`: a missing body,
an empty (falsy) dict, and a dict without the address key all take the
400 branch before anything else runs. -/
def enrich_property (env : EnrichEnv) (req : EnrichRequest) : EnrichOutcome :=
  match req.json with
  | none =>
      { response := EnrichResponse.err 400 "Missing 'address' in request body"
        scrapeCalls := [], log := [] }
  | some body =>
    if body.isEmpty then
      { response := EnrichResponse.err 400 "Missing 'address' in request body"
        scrapeCalls := [], log := [] }
    else
      match jlookup body "address" with
      | none =>
          { response := EnrichResponse.err 400 "Missing 'address' in request body"
            scrapeCalls := [], log := [] }
      | some addr => enrichGo env body addr

/-! ### The /predict handler (predict_document_type, src/app.py lines 31-97) -/

/-- A page image produced by convert_from_path, abstract. -/
abbrev Image := Nat

/-- The pre-trained classifier: predict maps the OCR text of one page to a
label; predictProba is `none` when the model object has no predict_proba
operation (so the call raises AttributeError), otherwise the per-class
probability row for the text. -/
structure DocModel where
  predict : String → Except String String
  predictProba : Option (String → Except String (List Rat))

/-- Environment of the /predict handler: the loaded model handle (None when
loading failed at startup), the PDF-to-image conversion result for the
saved temp file, the OCR engine, and whether os.unlink raises. -/
structure PredictEnv where
  doc_model : Option DocModel
  convert_from_path : Except String (List Image)
  image_to_string : Image → Except String String
  unlinkError : Option String

/-- A /predict request: whether the multipart `file` field is present, and
the uploaded filename. -/
structure PredictRequest where
  hasFilePart : Bool
  filename : String

/-- One per-page prediction entry appended at src/app.py lines 72-77. -/
structure PredEntry where
  page : Nat
  predicted_label : String
  confidence : Option Rat
  text_length : Nat
  deriving Repr, DecidableEq

/-- HTTP response of the /predict handler. `ok` is the 200 body
\x7bsuccess: true, filename, page_count, predictions\x7d. -/
inductive PredictResponse where
  | err (status : Nat) (error : String)
  | errDetails (status : Nat) (error details : String)
  | ok (filename : String) (page_count : Nat) (predictions : List PredEntry)
  deriving Repr, DecidableEq

/-- Whether a /predict response is the 200 success body. -/
def PredictResponse.isSuccess : PredictResponse → Bool
  | PredictResponse.ok _ _ _ => true
  | _ => false

/-- Externally visible events of one /predict request, in order. -/
inductive PEvent where
  | createTemp
  | convertCall
  | ocrCall (img : Image)
  | predictCall (text : String)
  | probaCall (text : String)
  | tryUnlink
  deriving Repr, DecidableEq

/-- Observable outcome of one /predict request. -/
structure PredictOutcome where
  response : PredictResponse
  tempCreated : Bool
  tempExists : Bool
  events : List PEvent
  log : List String

/-- Embedding of Python max over a list: raises ValueError on an empty
sequence, otherwise returns the greatest element. -/
def pymax : List Rat → Except String Rat
  | [] => Except.error "max() arg is an empty sequence"
  | x :: xs => Except.ok (xs.foldl max x)

/-- Total version of `pymax` used to state what the maximum is on a
nonempty row. -/
def pymaxD : List Rat → Rat
  | [] => 0
  | x :: xs => xs.foldl max x

/-- The confidence computation of src/app.py lines 64-70: when the model
has no predict_proba the AttributeError is caught and confidence is None;
otherwise confidence is max of the probability row, and any exception
raised there propagates to the outer handler. -/
def confidenceOf (m : DocModel) (text : String) : Except String (Option Rat) :=
  match m.predictProba with
  | none => Except.ok none
  | some f =>
    match f text with
    | Except.error e => Except.error e
    | Except.ok row =>
      match pymax row with
      | Except.error e => Except.error e
      | Except.ok c => Except.ok (some c)

/-- The page loop of src/app.py lines 58-77, starting at 0-based index i:
OCR each image, classify its text, compute the confidence, and collect the
entries; the first raised exception aborts the loop.  Returns the events
performed together with the entries or the exception message. -/
def runPagesAux (env : PredictEnv) (m : DocModel) :
    Nat → List Image → List PEvent × Except String (List PredEntry)
  | _, [] => ([], Except.ok [])
  | i, img :: rest =>
    match env.image_to_string img with
    | Except.error e => ([PEvent.ocrCall img], Except.error e)
    | Except.ok text =>
      match m.predict text with
      | Except.error e => ([PEvent.ocrCall img, PEvent.predictCall text], Except.error e)
      | Except.ok label =>
        let pevs := match m.predictProba with
          | none => [PEvent.ocrCall img, PEvent.predictCall text]
          | some _ => [PEvent.ocrCall img, PEvent.predictCall text, PEvent.probaCall text]
        match confidenceOf m text with
        | Except.error e => (pevs, Except.error e)
        | Except.ok conf =>
          let entry : PredEntry :=
            { page := i + 1, predicted_label := label
              confidence := conf, text_length := text.length }
          let rec_ := runPagesAux env m (i + 1) rest
          (pevs ++ rec_.1,
           match rec_.2 with
           | Except.error e => Except.error e
           | Except.ok entries => Except.ok (entry :: entries))

/-- The except branch of src/app.py lines 89-97: best-effort unlink of the
temp file (failures swallowed), print the error, respond 500 with the
exception message as details. -/
def failOutcome (env : PredictEnv) (e : String) (evs : List PEvent) : PredictOutcome :=
  { response := PredictResponse.errDetails 500 "Failed to process PDF" e
    tempCreated := true
    tempExists := env.unlinkError.isSome
    events := evs ++ [PEvent.tryUnlink]
    log := ["An error occurred during document prediction: " ++ e] }

/-- The /predict handler (src/app.py lines 31-97): model-loaded guard
(503), file-part and filename guards (400), then save to a temp file,
convert to images, run the page loop, unlink the temp file and respond
200; any exception in the try block takes the failOutcome branch. -/
def predict_document_type (env : PredictEnv) (req : PredictRequest) : PredictOutcome :=
  match env.doc_model with
  | none =>
      { response := PredictResponse.err 503
          "Document classification model not loaded. Cannot perform prediction."
        tempCreated := false, tempExists := false, events := [], log := [] }
  | some m =>
    if req.hasFilePart = false then
      { response := PredictResponse.err 400 "No file part in the request"
        tempCreated := false, tempExists := false, events := [], log := [] }
    else if req.filename = "" then
      { response := PredictResponse.err 400 "No file selected for uploading"
        tempCreated := false, tempExists := false, events := [], log := [] }
    else if pyEndsWith (pyLower req.filename) ".pdf" = false then
      { response := PredictResponse.err 400 "Only PDF files are supported"
        tempCreated := false, tempExists := false, events := [], log := [] }
    else
      match env.convert_from_path with
      | Except.error e => failOutcome env e [PEvent.createTemp, PEvent.convertCall]
      | Except.ok images =>
        let run := runPagesAux env m 0 images
        match run.2 with
        | Except.error e =>
            failOutcome env e (PEvent.createTemp :: PEvent.convertCall :: run.1)
        | Except.ok preds =>
          match env.unlinkError with
          | some msg =>
              failOutcome env msg
                (PEvent.createTemp :: PEvent.convertCall :: run.1 ++ [PEvent.tryUnlink])
          | none =>
              { response := PredictResponse.ok req.filename preds.length preds
                tempCreated := true
                tempExists := false
                events := PEvent.createTemp :: PEvent.convertCall :: run.1 ++ [PEvent.tryUnlink]
                log := [] }

/-! ### Concrete test data used by the witnesses -/

/-- A request body carrying only an address. -/
def bodyB : JBody := [("address", JVal.s "Dallas, TX")]

/-- One scraped row with a NaN cell. -/
def rowsB : DataFrame := [[("price", Cell.i 5), ("beds", Cell.nan)]]

/-- Scraping environment returning one row. -/
def envB : EnrichEnv := ⟨fun _ => Except.ok (ScrapeOut.df rowsB)⟩

/-- Scraping environment returning an empty DataFrame. -/
def envB0 : EnrichEnv := ⟨fun _ => Except.ok (ScrapeOut.df [])⟩

/-- Scraping environment raising a ValueError. -/
def envBerr : EnrichEnv := ⟨fun _ => Except.error (PyErr.valueError "bad location")⟩

/-! ### Helper lemmas -/

/-- A body in which some key is found is not the empty dict. -/
theorem jlookup_isEmpty_false {body : JBody} {k : String} {v : JVal}
    (h : jlookup body k = some v) : body.isEmpty = false := by
  cases body with
  | nil => simp [jlookup] at h
  | cons hd tl => simp [List.isEmpty]

/-! ### Claims about /enrich -/

/-- C6: an /enrich request whose JSON body is absent/falsy or lacks the
address key gets HTTP 400 with the explicit error message, and the
scraping library is never invoked. -/
theorem enrich_missing_address (env : EnrichEnv) (req : EnrichRequest)
    (h : req.json = none ∨ ∃ body, req.json = some body ∧
      (body.isEmpty = true ∨ jlookup body "address" = none)) :
    (enrich_property env req).response =
      EnrichResponse.err 400 "Missing 'address' in request body" ∧
    (enrich_property env req).scrapeCalls = [] := by
  rcases h with h | ⟨body, hb, h⟩
  · simp [enrich_property, h]
  · rcases h with h | h
    · simp [enrich_property, hb, h]
    · cases he : body.isEmpty with
      | true => simp [enrich_property, hb, he]
      | false => simp [enrich_property, hb, he, h]

/-- Witness for C6 at a concrete absent body. -/
theorem enrich_missing_address_witness :
    (enrich_property envB ⟨none⟩).response =
      EnrichResponse.err 400 "Missing 'address' in request body" ∧
    (enrich_property envB ⟨none⟩).scrapeCalls = [] :=
  enrich_missing_address envB ⟨none⟩ (Or.inl rfl)

/-- C2: an /enrich request with an address for which scraping returns a
nonempty DataFrame of N rows gets the 200 success body with count N and a
properties list of the N cleaned rows, where cleaning replaces every cell
on which pd.isna holds by null, so no NaN cell remains. -/
theorem enrich_nonempty_result (env : EnrichEnv) (body : JBody) (addr : JVal)
    (rows : DataFrame)
    (ha : jlookup body "address" = some addr)
    (hs : env.scrape (mkScrapeArgs body addr) = Except.ok (ScrapeOut.df rows))
    (hne : rows ≠ []) :
    (enrich_property env ⟨some body⟩).response =
      EnrichResponse.ok rows.length (rows.map clean_record) none ∧
    (rows.map clean_record).length = rows.length ∧
    ∀ r ∈ rows.map clean_record, ∀ kv ∈ r, kv.2 ≠ Cell.nan := by
  have he := jlookup_isEmpty_false ha
  refine ⟨?_, by simp, ?_⟩
  · simp [enrich_property, he, ha, enrichGo, hs, hne]
  · intro r hr kv hkv
    rcases List.mem_map.mp hr with ⟨r0, _, rfl⟩
    simp only [clean_record] at hkv
    rcases List.mem_map.mp hkv with ⟨kv0, _, rfl⟩
    cases hna : pd_isna kv0.2 with
    | true => simp [hna]
    | false =>
      simp only [hna, Bool.false_eq_true, if_false]
      intro hc
      rw [hc] at hna
      simp [pd_isna] at hna

/-- Witness for C2 at a concrete one-row result with a NaN cell. -/
theorem enrich_nonempty_result_witness :
    (enrich_property envB ⟨some bodyB⟩).response =
      EnrichResponse.ok rowsB.length (rowsB.map clean_record) none ∧
    (rowsB.map clean_record).length = rowsB.length ∧
    ∀ r ∈ rowsB.map clean_record, ∀ kv ∈ r, kv.2 ≠ Cell.nan :=
  enrich_nonempty_result envB bodyB (JVal.s "Dallas, TX") rowsB rfl rfl (by decide)

/-- C3: an /enrich request with an address for which scraping returns an
empty DataFrame gets the 200 success body with count 0, empty properties
and the no-properties-found message. -/
theorem enrich_empty_result (env : EnrichEnv) (body : JBody) (addr : JVal)
    (ha : jlookup body "address" = some addr)
    (hs : env.scrape (mkScrapeArgs body addr) = Except.ok (ScrapeOut.df [])) :
    (enrich_property env ⟨some body⟩).response =
      EnrichResponse.ok 0 [] (some "No properties found for the given address") := by
  have he := jlookup_isEmpty_false ha
  simp [enrich_property, he, ha, enrichGo, hs]

/-- Witness for C3 at a concrete empty result. -/
theorem enrich_empty_result_witness :
    (enrich_property envB0 ⟨some bodyB⟩).response =
      EnrichResponse.ok 0 [] (some "No properties found for the given address") :=
  enrich_empty_result envB0 bodyB (JVal.s "Dallas, TX") rfl rfl

/-- C10: when the scraping call raises a ValueError, /enrich responds 400
with the exception message as the error body (not the generic 500). -/
theorem enrich_valueerror_400 (env : EnrichEnv) (body : JBody) (addr : JVal)
    (msg : String)
    (ha : jlookup body "address" = some addr)
    (hs : env.scrape (mkScrapeArgs body addr) = Except.error (PyErr.valueError msg)) :
    (enrich_property env ⟨some body⟩).response = EnrichResponse.err 400 msg := by
  have he := jlookup_isEmpty_false ha
  simp [enrich_property, he, ha, enrichGo, hs]

/-- Witness for C10 at a concrete ValueError. -/
theorem enrich_valueerror_400_witness :
    (enrich_property envBerr ⟨some bodyB⟩).response =
      EnrichResponse.err 400 "bad location" :=
  enrich_valueerror_400 envBerr bodyB (JVal.s "Dallas, TX") "bad location" rfl rfl

/-- C9: whenever /enrich reaches the scraping call, it passes exactly the
argument record built from the body; its limit is the runtime default 100
when the body omits the limit key, and the supplied value unchanged when
it is present. -/
theorem enrich_limit_passthrough (env : EnrichEnv) (body : JBody) (addr : JVal)
    (ha : jlookup body "address" = some addr) :
    (enrich_property env ⟨some body⟩).scrapeCalls = [mkScrapeArgs body addr] ∧
    (jlookup body "limit" = none → (mkScrapeArgs body addr).limit = JVal.i 100) ∧
    (∀ v, jlookup body "limit" = some v → (mkScrapeArgs body addr).limit = v) := by
  have he := jlookup_isEmpty_false ha
  refine ⟨?_, ?_, ?_⟩
  · simp only [enrich_property, he, ha]
    cases hs : env.scrape (mkScrapeArgs body addr) with
    | ok o =>
      cases o with
      | df rows => cases hr : rows.isEmpty <;> simp [enrichGo, hs, hr]
      | notDF => simp [enrichGo, hs]
    | error err => cases err <;> simp [enrichGo, hs]
  · intro h
    simp [mkScrapeArgs, jgetD, h]
  · intro v h
    simp [mkScrapeArgs, jgetD, h]

/-- Witness for C9 at a concrete body without a limit key. -/
theorem enrich_limit_passthrough_witness :
    (enrich_property envB ⟨some bodyB⟩).scrapeCalls =
      [mkScrapeArgs bodyB (JVal.s "Dallas, TX")] ∧
    (jlookup bodyB "limit" = none →
      (mkScrapeArgs bodyB (JVal.s "Dallas, TX")).limit = JVal.i 100) ∧
    (∀ v, jlookup bodyB "limit" = some v →
      (mkScrapeArgs bodyB (JVal.s "Dallas, TX")).limit = v) :=
  enrich_limit_passthrough envB bodyB (JVal.s "Dallas, TX") rfl

/-! ### Concrete /predict test data used by the witnesses -/

/-- A classifier whose predict always succeeds and whose probability rows
are the singleton [1/2]. -/
def modelA : DocModel :=
  { predict := fun _ => Except.ok "mortgage"
    predictProba := some (fun _ => Except.ok [(1 : Rat)/2]) }

/-- Environment with the model loaded, a three-page conversion, an OCR
engine that always succeeds, and a working unlink. -/
def envA : PredictEnv :=
  { doc_model := some modelA
    convert_from_path := Except.ok [0, 1, 2]
    image_to_string := fun _ => Except.ok "t"
    unlinkError := none }

/-- Environment whose OCR engine raises on every page. -/
def envA7 : PredictEnv :=
  { doc_model := some modelA
    convert_from_path := Except.ok [0]
    image_to_string := fun _ => Except.error "tesseract failed"
    unlinkError := none }

/-- Environment with no model loaded. -/
def envNone : PredictEnv :=
  { doc_model := none
    convert_from_path := Except.ok []
    image_to_string := fun _ => Except.ok ""
    unlinkError := none }

/-- A well-formed PDF upload request. -/
def reqA : PredictRequest := { hasFilePart := true, filename := "Doc.PDF" }

/-- An upload request with a non-PDF filename. -/
def reqTxt : PredictRequest := { hasFilePart := true, filename := "doc.txt" }

/-! ### Helper lemmas about the page loop -/

/-- Closed form of the entries produced by a fully successful page loop
whose OCR, predict and confidence results are given by otext, plabel
and cf. -/
def happyRun (otext : Image → String) (plabel : String → String)
    (cf : String → Option Rat) : Nat → List Image → List PredEntry
  | _, [] => []
  | i, img :: rest =>
    { page := i + 1, predicted_label := plabel (otext img)
      confidence := cf (otext img), text_length := (otext img).length } ::
    happyRun otext plabel cf (i + 1) rest

/-- When every external call of the page loop succeeds, the loop returns
exactly the closed-form entries. -/
theorem runPagesAux_ok (env : PredictEnv) (m : DocModel)
    (otext : Image → String) (plabel : String → String) (cf : String → Option Rat)
    (hocr : ∀ img, env.image_to_string img = Except.ok (otext img))
    (hpred : ∀ s, m.predict s = Except.ok (plabel s))
    (hcf : ∀ s, confidenceOf m s = Except.ok (cf s)) :
    ∀ (i : Nat) (imgs : List Image),
      (runPagesAux env m i imgs).2 =
        Except.ok (happyRun otext plabel cf i imgs) := by
  intro i imgs
  induction imgs generalizing i with
  | nil => simp [runPagesAux, happyRun]
  | cons img rest ih => simp [runPagesAux, happyRun, hocr, hpred, hcf, ih]

/-- The closed-form run has one entry per page. -/
theorem happyRun_length (otext : Image → String) (plabel : String → String)
    (cf : String → Option Rat) :
    ∀ (i : Nat) (imgs : List Image),
      (happyRun otext plabel cf i imgs).length = imgs.length := by
  intro i imgs
  induction imgs generalizing i with
  | nil => simp [happyRun]
  | cons img rest ih => simp [happyRun, ih]

/-- The page numbers of the closed-form run started at index i are the
consecutive integers i+1, i+2, ... (so at i = 0 the j-th entry, 0-based,
has page j+1). -/
theorem happyRun_map_page (otext : Image → String) (plabel : String → String)
    (cf : String → Option Rat) :
    ∀ (i : Nat) (imgs : List Image),
      (happyRun otext plabel cf i imgs).map PredEntry.page =
        List.range' (i + 1) imgs.length := by
  intro i imgs
  induction imgs generalizing i with
  | nil => simp [happyRun]
  | cons img rest ih => simp [happyRun, List.range', ih]

/-- The confidences of the closed-form run are cf of the OCR text of each
page, in page order. -/
theorem happyRun_map_conf (otext : Image → String) (plabel : String → String)
    (cf : String → Option Rat) :
    ∀ (i : Nat) (imgs : List Image),
      (happyRun otext plabel cf i imgs).map PredEntry.confidence =
        imgs.map (fun img => cf (otext img)) := by
  intro i imgs
  induction imgs generalizing i with
  | nil => simp [happyRun]
  | cons img rest ih => simp [happyRun, ih]

/-- When every page before img succeeds and OCR or predict raises e on
img, the page loop propagates e. -/
theorem runPagesAux_error (env : PredictEnv) (m : DocModel) (img : Image)
    (rest : List Image) (e : String)
    (hbad : env.image_to_string img = Except.error e ∨
      ∃ t, env.image_to_string img = Except.ok t ∧ m.predict t = Except.error e) :
    ∀ (pre : List Image) (i : Nat),
      (∀ p ∈ pre, ∃ t l c, env.image_to_string p = Except.ok t ∧
        m.predict t = Except.ok l ∧ confidenceOf m t = Except.ok c) →
      (runPagesAux env m i (pre ++ img :: rest)).2 = Except.error e := by
  intro pre
  induction pre with
  | nil =>
    intro i _
    rcases hbad with h | ⟨t, ht, hp⟩
    · simp [runPagesAux, h]
    · simp [runPagesAux, ht, hp]
  | cons p pre ih =>
    intro i hpre
    rcases hpre p (by simp) with ⟨t, l, c, ht, hl, hc⟩
    have ihx := ih (i + 1) (fun q hq => hpre q (by simp [hq]))
    simp [runPagesAux, ht, hl, hc, ihx]

/-! ### Claims about /predict -/

/-- C5: with the model handle unloaded, /predict responds 503 at once: no
temporary file, no external call, nothing logged. -/
theorem predict_model_unloaded (env : PredictEnv) (req : PredictRequest)
    (h : env.doc_model = none) :
    predict_document_type env req =
      { response := PredictResponse.err 503
          "Document classification model not loaded. Cannot perform prediction."
        tempCreated := false, tempExists := false, events := [], log := [] } := by
  simp [predict_document_type, h]

/-- Witness for C5 at a concrete unloaded environment. -/
theorem predict_model_unloaded_witness :
    predict_document_type envNone reqA =
      { response := PredictResponse.err 503
          "Document classification model not loaded. Cannot perform prediction."
        tempCreated := false, tempExists := false, events := [], log := [] } :=
  predict_model_unloaded envNone reqA rfl

/-- C4: with the model loaded and a file part present, an empty filename
or one not ending in .pdf (case-insensitively) gets HTTP 400, and no
temporary file is created and no conversion, OCR or classifier call is
made (the event list is empty). -/
theorem predict_bad_filename (env : PredictEnv) (req : PredictRequest)
    (m : DocModel)
    (hm : env.doc_model = some m)
    (hfp : req.hasFilePart = true)
    (hbad : req.filename = "" ∨ pyEndsWith (pyLower req.filename) ".pdf" = false) :
    (∃ msg, (predict_document_type env req).response = PredictResponse.err 400 msg) ∧
    (predict_document_type env req).events = [] ∧
    (predict_document_type env req).tempCreated = false := by
  rcases hbad with h | h
  · refine ⟨⟨"No file selected for uploading", ?_⟩, ?_, ?_⟩ <;>
      simp [predict_document_type, hm, hfp, h]
  · by_cases he : req.filename = ""
    · refine ⟨⟨"No file selected for uploading", ?_⟩, ?_, ?_⟩ <;>
        simp [predict_document_type, hm, hfp, he]
    · refine ⟨⟨"Only PDF files are supported", ?_⟩, ?_, ?_⟩ <;>
        simp [predict_document_type, hm, hfp, he, h]

/-- Witness for C4 at a concrete .txt upload. -/
theorem predict_bad_filename_witness :
    (∃ msg, (predict_document_type envA reqTxt).response = PredictResponse.err 400 msg) ∧
    (predict_document_type envA reqTxt).events = [] ∧
    (predict_document_type envA reqTxt).tempCreated = false :=
  predict_bad_filename envA reqTxt modelA rfl rfl (Or.inr (by decide))

/-- C1: with the model loaded, a valid PDF upload whose conversion yields
K page images and whose per-page OCR, classification, confidence
computation and final unlink all succeed gets the 200 success body with
page_count K and K entries whose page numbers are 1..K in order; every
confidence is null when the model has no predict_proba operation, and is
the maximum of the probability row of the page text otherwise. -/
theorem predict_success_shape (env : PredictEnv) (req : PredictRequest)
    (m : DocModel) (imgs : List Image) (K : Nat)
    (otext : Image → String) (plabel : String → String) (cf : String → Option Rat)
    (hm : env.doc_model = some m)
    (hfp : req.hasFilePart = true)
    (hfn : req.filename ≠ "")
    (hpdf : pyEndsWith (pyLower req.filename) ".pdf" = true)
    (hconv : env.convert_from_path = Except.ok imgs)
    (hK : imgs.length = K)
    (hunl : env.unlinkError = none)
    (hocr : ∀ img, env.image_to_string img = Except.ok (otext img))
    (hpred : ∀ s, m.predict s = Except.ok (plabel s))
    (hcf : ∀ s, confidenceOf m s = Except.ok (cf s)) :
    ∃ preds,
      (predict_document_type env req).response =
        PredictResponse.ok req.filename K preds ∧
      preds.length = K ∧
      preds.map PredEntry.page = List.range' 1 K ∧
      (m.predictProba = none → ∀ e ∈ preds, e.confidence = none) ∧
      (∀ (f : String → Except String (List Rat)) (row : String → List Rat),
        m.predictProba = some f → (∀ s, f s = Except.ok (row s)) →
        preds.map PredEntry.confidence =
          imgs.map (fun img => some (pymaxD (row (otext img))))) := by
  have hrun := runPagesAux_ok env m otext plabel cf hocr hpred hcf 0 imgs
  refine ⟨happyRun otext plabel cf 0 imgs, ?_, ?_, ?_, ?_, ?_⟩
  · simp [predict_document_type, hm, hfp, hfn, hpdf, hconv, hunl, hrun,
      happyRun_length, hK]
  · rw [happyRun_length, hK]
  · rw [happyRun_map_page, hK]
  · intro hpp e he
    have hmem : e.confidence ∈ (happyRun otext plabel cf 0 imgs).map PredEntry.confidence :=
      List.mem_map_of_mem PredEntry.confidence he
    rw [happyRun_map_conf] at hmem
    rcases List.mem_map.mp hmem with ⟨img, _, hcfe⟩
    have h := hcf (otext img)
    simp [confidenceOf, hpp] at h
    rw [← hcfe, ← h]
  · intro f row hf hrow
    have hcfs : ∀ s, cf s = some (pymaxD (row s)) := by
      intro s
      have h := hcf s
      simp only [confidenceOf, hf, hrow s] at h
      cases hr : row s with
      | nil => rw [hr] at h; simp [pymax] at h
      | cons x xs =>
        rw [hr] at h
        simp only [pymax, Except.ok.injEq, pymaxD] at h ⊢
        exact h.symm
    rw [happyRun_map_conf]
    simp only [hcfs]

/-- Witness for C1 at a concrete three-page success run. -/
theorem predict_success_shape_witness :
    ∃ preds,
      (predict_document_type envA reqA).response =
        PredictResponse.ok reqA.filename 3 preds ∧
      preds.length = 3 ∧
      preds.map PredEntry.page = List.range' 1 3 ∧
      (modelA.predictProba = none → ∀ e ∈ preds, e.confidence = none) ∧
      (∀ (f : String → Except String (List Rat)) (row : String → List Rat),
        modelA.predictProba = some f → (∀ s, f s = Except.ok (row s)) →
        preds.map PredEntry.confidence =
          [0, 1, 2].map (fun img => some (pymaxD (row ((fun _ => "t") img))))) :=
  predict_success_shape envA reqA modelA [0, 1, 2] 3 (fun _ => "t")
    (fun _ => "mortgage") (fun _ => some ((1 : Rat)/2)) rfl rfl (by decide)
    (by decide) rfl rfl rfl (fun _ => rfl) (fun _ => rfl) (fun _ => rfl)

/-- C7: with the model loaded and a valid PDF upload, if OCR or
classification raises on a single page (all pages before it succeeding),
the whole request aborts: the response is 500 with the exception message
as details and no predictions list, and the message is printed to the
process log. -/
theorem predict_page_failure_aborts (env : PredictEnv) (req : PredictRequest)
    (m : DocModel) (pre : List Image) (img : Image) (rest : List Image) (e : String)
    (hm : env.doc_model = some m)
    (hfp : req.hasFilePart = true)
    (hfn : req.filename ≠ "")
    (hpdf : pyEndsWith (pyLower req.filename) ".pdf" = true)
    (hconv : env.convert_from_path = Except.ok (pre ++ img :: rest))
    (hpre : ∀ p ∈ pre, ∃ t l c, env.image_to_string p = Except.ok t ∧
      m.predict t = Except.ok l ∧ confidenceOf m t = Except.ok c)
    (hbad : env.image_to_string img = Except.error e ∨
      ∃ t, env.image_to_string img = Except.ok t ∧ m.predict t = Except.error e) :
    (predict_document_type env req).response =
      PredictResponse.errDetails 500 "Failed to process PDF" e ∧
    (predict_document_type env req).log =
      ["An error occurred during document prediction: " ++ e] := by
  have hrun := runPagesAux_error env m img rest e hbad pre 0 hpre
  constructor <;>
    simp [predict_document_type, hm, hfp, hfn, hpdf, hconv, hrun, failOutcome]

/-- Witness for C7 at a concrete one-page OCR failure. -/
theorem predict_page_failure_aborts_witness :
    (predict_document_type envA7 reqA).response =
      PredictResponse.errDetails 500 "Failed to process PDF" "tesseract failed" ∧
    (predict_document_type envA7 reqA).log =
      ["An error occurred during document prediction: " ++ "tesseract failed"] :=
  predict_page_failure_aborts envA7 reqA modelA [] 0 [] "tesseract failed"
    rfl rfl (by decide) (by decide) rfl (by simp) (Or.inl rfl)

/-- C8: on every /predict request that creates the temporary file, an
unlink of that file is attempted, and whenever the response is the 200
success body the file is gone (so no successful request leaves its
temporary file behind). -/
theorem predict_temp_cleanup (env : PredictEnv) (req : PredictRequest) :
    ((predict_document_type env req).tempCreated = true →
      PEvent.tryUnlink ∈ (predict_document_type env req).events) ∧
    ((predict_document_type env req).response.isSuccess = true →
      (predict_document_type env req).tempExists = false) := by
  cases hm : env.doc_model with
  | none => simp [predict_document_type, hm, PredictResponse.isSuccess]
  | some m =>
    cases hfp : req.hasFilePart with
    | false => simp [predict_document_type, hm, hfp, PredictResponse.isSuccess]
    | true =>
      by_cases hfn : req.filename = ""
      · simp [predict_document_type, hm, hfp, hfn, PredictResponse.isSuccess]
      · cases hpdf : pyEndsWith (pyLower req.filename) ".pdf" with
        | false =>
          simp [predict_document_type, hm, hfp, hfn, hpdf, PredictResponse.isSuccess]
        | true =>
          cases hconv : env.convert_from_path with
          | error e =>
            simp [predict_document_type, hm, hfp, hfn, hpdf, hconv, failOutcome,
              PredictResponse.isSuccess]
          | ok imgs =>
            cases hrun : (runPagesAux env m 0 imgs).2 with
            | error e =>
              simp [predict_document_type, hm, hfp, hfn, hpdf, hconv, hrun,
                failOutcome, PredictResponse.isSuccess]
            | ok preds =>
              cases hunl : env.unlinkError with
              | none =>
                simp [predict_document_type, hm, hfp, hfn, hpdf, hconv, hrun,
                  hunl, PredictResponse.isSuccess]
              | some msg =>
                simp [predict_document_type, hm, hfp, hfn, hpdf, hconv, hrun,
                  hunl, failOutcome, PredictResponse.isSuccess]

/-- Witness for C8 at a concrete successful run. -/
theorem predict_temp_cleanup_witness :
    ((predict_document_type envA reqA).tempCreated = true →
      PEvent.tryUnlink ∈ (predict_document_type envA reqA).events) ∧
    ((predict_document_type envA reqA).response.isSuccess = true →
      (predict_document_type envA reqA).tempExists = false) :=
  predict_temp_cleanup envA reqA

end PropertyData
